import Mathlib

/-!
Verification of the IcomQaAi repository against its natural-language
specification.

The analytics frontend's test-agent chat page (TestAgentPage, in
src/unnamed/part_013) and the analytics backend's query layer
(src/analytics/backend/src/db/queries.ts) are embedded shallowly below:
TypeScript values become Lean structures, the handlers become pure Lean
functions on an explicit state record, and Prisma queries are modelled as
pure functions over an in-memory list of table rows.  JavaScript string
truthiness and trimming are modelled explicitly (jsTruthy, jsTrim).

The FastAPI/LangGraph chatbot service (planner, retrieval loop,
clarification node) is not part of the sources under src/; where a claim
depends on it, the missing component is modelled from the specification
text and the corresponding definition's doc comment says so.
-/

/-- JavaScript truthiness of a string: every string except the empty one
is truthy. -/
def jsTruthy (s : String) : Bool := s ≠ ""

/-- JavaScript truthiness of a possibly-absent string field: absent
(undefined or null) and the empty string are falsy. -/
def optTruthy : Option String → Bool
  | none => false
  | some s => jsTruthy s

/-- Model of JavaScript String.prototype.trim: drop whitespace from both
ends. -/
def jsTrim (s : String) : String :=
  ⟨((s.data.dropWhile Char.isWhitespace).reverse.dropWhile Char.isWhitespace).reverse⟩

/-- Model of JavaScript case-insensitive lowering (used by the Prisma
`mode: insensitive` contains-filter in queries.ts). -/
def jsToLower (s : String) : String := ⟨s.data.map Char.toLower⟩

/-- Substring check on character lists, modelling JavaScript / SQL
`contains`. -/
def containsSub (needle : List Char) : List Char → Bool
  | [] => needle.isEmpty
  | c :: rest => needle.isPrefixOf (c :: rest) || containsSub needle rest

/-- Keyed read on an association list, modelling both JavaScript
`record[key]` (undefined when absent) and `Map.get`: the first entry
with the key wins. -/
def recGet {β : Type} : List (String × β) → String → Option β
  | [], _ => none
  | p :: m, k => if p.1 = k then some p.2 else recGet m k

/-- Keyed write on an association list, modelling the object spread
update `(prev) => (.. .prev, [key]: value)`: an existing key keeps its
position and gets the new value, a new key is appended. -/
def recSet {β : Type} (m : List (String × β)) (k : String) (v : β) : List (String × β) :=
  if m.any (fun p => p.1 = k) then
    m.map (fun p => if p.1 = k then (k, v) else p)
  else
    m ++ [(k, v)]

/-- In-place update of the entry stored under an existing key, leaving
every other entry untouched. -/
def mapUpdateAt {β : Type} (m : List (String × β)) (k : String) (f : β → β) :
    List (String × β) :=
  m.map (fun p => if p.1 = k then (p.1, f p.2) else p)

instance {ε α : Type} [DecidableEq ε] [DecidableEq α] : DecidableEq (Except ε α)
  | .ok a, .ok b =>
    if h : a = b then .isTrue (h ▸ rfl) else .isFalse (fun hh => h (Except.ok.inj hh))
  | .ok _, .error _ => .isFalse (fun hh => Except.noConfusion hh)
  | .error _, .ok _ => .isFalse (fun hh => Except.noConfusion hh)
  | .error e, .error f =>
    if h : e = f then .isTrue (h ▸ rfl) else .isFalse (fun hh => h (Except.error.inj hh))

namespace TestAgent

/-! Shallow embedding of TestAgentPage (src/unnamed/part_013).  The React
component state (useState hooks) becomes the record `ChatState`; the
record objects `mcqInteractions` and `ticketInteractions`
(`Record&lt;string, ...&gt;`) become association lists keyed by message id. -/

/-- Message role: the source uses the string union 'user' | 'agent'. -/
inductive Role
  | user
  | agent
deriving DecidableEq, Repr

/-- MCQData from part_013. -/
structure MCQData where
  question : String
  answers : List String
deriving DecidableEq, Repr

/-- TicketData from part_013. -/
structure TicketData where
  category : String
  title : String
  description : String
deriving DecidableEq, Repr

/-- Message from part_013 (the timestamp field carries no logic in the
claims and is dropped). -/
structure Message where
  id : String
  role : Role
  content : String
  mcq : Option MCQData := none
  ticket : Option TicketData := none
deriving DecidableEq, Repr

/-- MCQInteractionState from part_013. -/
structure MCQInteractionState where
  messageId : String
  selectedAnswer : Option String
  customInput : String
  isCustomMode : Bool
deriving DecidableEq, Repr

/-- TicketInteractionState from part_013. -/
structure TicketInteractionState where
  messageId : String
  category : String
  title : String
  description : String
  submitted : Bool
deriving DecidableEq, Repr

/-- The component state of TestAgentPage (the useState hooks of
part_013 lines 45-54; `currentText` is currentMessageRef.current). -/
structure ChatState where
  messages : List Message
  inputValue : String
  isLoading : Bool
  botThoughts : Option String
  mcqInteractions : List (String × MCQInteractionState)
  ticketInteractions : List (String × TicketInteractionState)
  isChatDisabled : Bool
  currentText : String
deriving DecidableEq, Repr

/-- The fields of a ticket that handleTicketChange can target. -/
inductive TicketField
  | category
  | title
  | description
deriving DecidableEq, Repr

/-- Read one field of a TicketInteractionState. -/
def tiField (t : TicketInteractionState) : TicketField → String
  | .category => t.category
  | .title => t.title
  | .description => t.description

/-- Write one field of a TicketInteractionState, modelling the computed
property update `(.. .prev[messageId], [field]: value)`. -/
def tiSetField (t : TicketInteractionState) : TicketField → String → TicketInteractionState
  | .category, v => { t with category := v }
  | .title, v => { t with title := v }
  | .description, v => { t with description := v }

/-- Read one field of a TicketData. -/
def tdField (t : TicketData) : TicketField → String
  | .category => t.category
  | .title => t.title
  | .description => t.description

/-- Write one field of a TicketData, modelling
`(.. .msg.ticket, [field]: value)`. -/
def tdSetField (t : TicketData) : TicketField → String → TicketData
  | .category, v => { t with category := v }
  | .title, v => { t with title := v }
  | .description, v => { t with description := v }

/-- The per-message update performed by handleTicketChange's setMessages
call (part_013 lines 472-484): the message whose id matches and which
carries a ticket gets the targeted ticket field replaced; every other
message is returned unchanged. -/
def updateMsgTicket (messageId : String) (f : TicketField) (v : String) (m : Message) : Message :=
  if m.id = messageId ∧ m.ticket.isSome then
    { m with ticket := m.ticket.map (fun td => tdSetField td f v) }
  else
    m

/-- handleTicketChange (part_013 lines 463-485): updates the targeted
field in the interaction record and mirrors the change into the message's
ticket data.  The interaction entry exists whenever the UI fires this
handler (a ticket card is only rendered for a message created together
with its interaction entry), so the update maps the existing entry. -/
def handleTicketChange (s : ChatState) (messageId : String) (f : TicketField) (v : String) : ChatState :=
  { s with
    ticketInteractions :=
      mapUpdateAt s.ticketInteractions messageId (fun t => tiSetField t f v),
    messages := s.messages.map (updateMsgTicket messageId f v) }

/-- handleTicketSubmit (part_013 lines 449-461): marks the interaction
submitted and disables the chat; a missing interaction entry returns
early. -/
def handleTicketSubmit (s : ChatState) (messageId : String) : ChatState :=
  match recGet s.ticketInteractions messageId with
  | none => s
  | some _ =>
    { s with
      ticketInteractions :=
        mapUpdateAt s.ticketInteractions messageId (fun t => { t with submitted := true }),
      isChatDisabled := true }

/-! MCQ interaction handlers (part_013 lines 253-307 and the option
buttons rendered at lines 688-770). -/

/-- The sentinel used internally for the write-your-own choice. -/
def writeYourOwn : String := "write_your_own"

/-- handleMcqAnswerSelect (part_013 lines 253-273), acting on the single
interaction entry it updates. -/
def mcqAnswerSelect (st : MCQInteractionState) (answer : String) : MCQInteractionState :=
  if answer = writeYourOwn ∨ answer = "Write your own" then
    { st with isCustomMode := true, selectedAnswer := some writeYourOwn }
  else
    { st with selectedAnswer := some answer, isCustomMode := false }

/-- The custom-answer textarea onChange (part_013 lines 692-700). -/
def mcqSetCustomInput (st : MCQInteractionState) (text : String) : MCQInteractionState :=
  { st with customInput := text }

/-- The Back-to-Options button (part_013 lines 707-716). -/
def mcqBackToOptions (st : MCQInteractionState) : MCQInteractionState :=
  { st with isCustomMode := false, customInput := "" }

/-- The effective answer computed by handleMcqSubmit (part_013 lines
279-283): custom mode (or the sentinel selection) submits the trimmed
custom text, otherwise the selected option is submitted; a falsy answer
aborts the submission (`if (!answer) return`). -/
def mcqEffectiveAnswer (st : MCQInteractionState) : Option String :=
  let a : Option String :=
    if st.isCustomMode ∨ st.selectedAnswer = some writeYourOwn then
      some (jsTrim st.customInput)
    else
      st.selectedAnswer
  match a with
  | some s => if s = "" then none else some s
  | none => none

/-- The MCQ option buttons pass `isWriteYourOwn ? 'write_your_own' :
answer` for each rendered answer, and the extra fallback button passes
the sentinel (part_013 lines 732-761): every argument ever handed to
handleMcqAnswerSelect is the sentinel or one of the offered options. -/
def uiSelectArg (options : List String) (a : String) : Prop :=
  a = writeYourOwn ∨ a ∈ options

/-- Interaction states of one MCQ message reachable through the UI: the
entry is created blank when the mcq event arrives (part_013 lines
186-194) and then evolves only through the three handlers above. -/
inductive McqReach (options : List String) : MCQInteractionState → Prop
  | init (mid : String) : McqReach options ⟨mid, none, "", false⟩
  | select {st : MCQInteractionState} {a : String} :
      McqReach options st → uiSelectArg options a → McqReach options (mcqAnswerSelect st a)
  | setCustom {st : MCQInteractionState} (t : String) :
      McqReach options st → McqReach options (mcqSetCustomInput st t)
  | back {st : MCQInteractionState} :
      McqReach options st → McqReach options (mcqBackToOptions st)

/-! Embedding of the SSE stream consumption loop of handleSendMessage
(part_013 lines 128-231).  Each parsed `data:` JSON payload is modelled
as a record of the fields the handler inspects; absent fields are
`none`.  JavaScript truthiness drives every branch guard: a non-empty
string is truthy, and an array value (even an empty one) is truthy,
which for the `answers` field makes the guard `isSome`. -/
structure SseData where
  node : Option String := none
  output_type : Option String := none
  token : Option String := none
  question : Option String := none
  answers : Option (List String) := none
  category : Option String := none
  title : Option String := none
  description : Option String := none
deriving DecidableEq, Repr

/-- The id under which the in-progress streamed agent message is stored
(part_013 line 157). -/
def currentAgentMsgId : String := "current_agent_msg"

/-- The text-token branch (part_013 lines 143-166): the token is
appended to currentMessageRef and the trailing current_agent_msg message
is updated in place, or a fresh one is appended when the last message is
not the in-progress agent message. -/
def appendToken (s : ChatState) (tok : String) : ChatState :=
  let newText := s.currentText ++ tok
  let msgs :=
    match s.messages.getLast? with
    | some lastMsg =>
      if lastMsg.role = Role.agent ∧ lastMsg.id = currentAgentMsgId then
        s.messages.map
          (fun m => if m.id = currentAgentMsgId then { m with content := newText } else m)
      else
        s.messages ++ [{ id := currentAgentMsgId, role := Role.agent, content := newText }]
    | none => s.messages ++ [{ id := currentAgentMsgId, role := Role.agent, content := newText }]
  { s with messages := msgs, currentText := newText }

/-- The mcq branch (part_013 lines 169-196): any in-progress streamed
message is dropped and a single structured MCQ message is appended,
together with a blank interaction entry. -/
def mcqArrival (s : ChatState) (freshId : String) (q : String) (ans : List String) : ChatState :=
  { s with
    messages :=
      (s.messages.filter (fun m => m.id ≠ currentAgentMsgId)) ++
        [{ id := freshId, role := Role.agent, content := "", mcq := some ⟨q, ans⟩ }],
    mcqInteractions :=
      recSet s.mcqInteractions freshId ⟨freshId, none, "", false⟩ }

/-- The ticket branch (part_013 lines 199-228): any in-progress streamed
message is dropped and a single structured ticket message is appended,
together with an unsubmitted interaction entry. -/
def ticketArrival (s : ChatState) (freshId : String) (td : TicketData) : ChatState :=
  { s with
    messages :=
      (s.messages.filter (fun m => m.id ≠ currentAgentMsgId)) ++
        [{ id := freshId, role := Role.agent, content := "", ticket := some td }],
    ticketInteractions :=
      recSet s.ticketInteractions freshId ⟨freshId, td.category, td.title, td.description, false⟩ }

/-- One parsed SSE payload processed by the loop body of
handleSendMessage (part_013 lines 134-228), in the source's guard
order: node, then text, then mcq, then ticket; a payload matching no
branch falls through and leaves the state untouched (the stream is not
aborted). -/
def processSseData (freshId : String) (d : SseData) (s : ChatState) : ChatState :=
  if optTruthy d.node then
    { s with botThoughts := d.node }
  else if d.output_type = some "text" ∧ optTruthy d.token then
    appendToken s (d.token.getD "")
  else if d.output_type = some "mcq" ∧ optTruthy d.question ∧ d.answers.isSome then
    mcqArrival s freshId (d.question.getD "") (d.answers.getD [])
  else if d.output_type = some "ticket" ∧ optTruthy d.category ∧ optTruthy d.title ∧ optTruthy d.description then
    ticketArrival s freshId ⟨d.category.getD "", d.title.getD "", d.description.getD ""⟩
  else
    s

/-! Chat-input guards (part_013 lines 71-80 and the input area at lines
876-919). -/

/-- The activity test of part_013 line 75: an MCQ interaction counts as
active while no answer is selected (null or empty) or while custom mode
has only blank text. -/
def mcqIsActive (m : MCQInteractionState) : Bool :=
  !(optTruthy m.selectedAnswer) || (m.isCustomMode && !(jsTruthy (jsTrim m.customInput)))

/-- `Object.values(mcqInteractions).some(...)` of part_013 line 75. -/
def hasActiveMcq (s : ChatState) : Bool :=
  (s.mcqInteractions.map (fun p => p.2)).any mcqIsActive

/-- `Object.values(ticketInteractions).some(t => t.submitted)` of
part_013 line 79. -/
def hasSubmittedTicket (s : ChatState) : Bool :=
  (s.ticketInteractions.map (fun p => p.2)).any (fun t => t.submitted)

/-- A user chat message as appended by handleSendMessage (part_013
lines 82-89). -/
def userMessage (content : String) : Message :=
  { id := "msg_user", role := Role.user, content := content }

/-- The synchronous prefix of handleSendMessage (part_013 lines 71-93):
the three early-return guards in source order, then the user message is
appended, the input cleared and loading started.  The network phase that
follows is the SSE loop modelled by processSseData. -/
def handleSendMessageLocal (s : ChatState) : ChatState :=
  if ¬ jsTruthy (jsTrim s.inputValue) ∨ s.isLoading then s
  else if hasActiveMcq s then s
  else if s.isChatDisabled ∧ ¬ hasSubmittedTicket s then s
  else
    { s with
      messages := s.messages ++ [userMessage (jsTrim s.inputValue)],
      inputValue := "",
      isLoading := true,
      botThoughts := none,
      currentText := "" }

/-! UI step machine for the post-submission life of a ticket draft.  The
category, title and description inputs of a ticket card are rendered
with `disabled = ticketInteraction?.submitted` (part_013 lines 787, 799,
810), so a direct edit event is only delivered while the draft is
unsubmitted; server events carry ids freshly minted from a strictly
increasing clock (`ticket_` / `mcq_` plus Date.now()). -/
inductive UiEvent
  | directEdit (mid : String) (f : TicketField) (v : String)
  | ticketSubmit (mid : String)
  | serverTicket (freshId : String) (td : TicketData)
  | serverMcq (freshId : String) (q : String) (ans : List String)
  | serverText (tok : String)
  | serverNode (nm : String)
  | mcqSelect (mid : String) (a : String)
  | plainSend

/-- The fresh id a server event would insert under, if any. -/
def UiEvent.freshKey : UiEvent → Option String
  | .serverTicket freshId _ => some freshId
  | .serverMcq freshId _ _ => some freshId
  | _ => none

/-- handleMcqAnswerSelect lifted to the whole state (part_013 lines
253-273); it touches only the addressed mcq interaction entry. -/
def handleMcqAnswerSelectState (s : ChatState) (mid : String) (a : String) : ChatState :=
  { s with
    mcqInteractions :=
      mapUpdateAt s.mcqInteractions mid (fun st => mcqAnswerSelect st a) }

/-- One UI or server event applied to the page state.  directEdit
reaches handleTicketChange only through an enabled input, which the
render guards with the draft's submitted flag. -/
def uiStep (s : ChatState) : UiEvent → ChatState
  | .directEdit mid f v =>
    match recGet s.ticketInteractions mid with
    | some t => if t.submitted then s else handleTicketChange s mid f v
    | none => s
  | .ticketSubmit mid => handleTicketSubmit s mid
  | .serverTicket freshId td => ticketArrival s freshId td
  | .serverMcq freshId q ans => mcqArrival s freshId q ans
  | .serverText tok => appendToken s tok
  | .serverNode nm => { s with botThoughts := some nm }
  | .mcqSelect mid a => handleMcqAnswerSelectState s mid a
  | .plainSend => handleSendMessageLocal s

/-- A whole event trace folded over the state. -/
def uiRun (s : ChatState) (evs : List UiEvent) : ChatState :=
  evs.foldl uiStep s

/-! Embedding of the identifier scope at the textarea's onKeyDown
handler (part_013 lines 881-890).  At line 884 the handler evaluates
`ticketState?.submitted`; the names visible there are the module-level
bindings of part_013, the component-level consts of TestAgentPage, the
handler's parameter and the ambient browser globals the file uses. -/
def testAgentNamesInScope : List String :=
  ["useEffect", "useRef", "useState", "kbApi", "containsHebrew", "TestAgentPage",
   "sessionId", "setSessionId", "messages", "setMessages", "inputValue", "setInputValue",
   "isLoading", "setIsLoading", "botThoughts", "setBotThoughts",
   "mcqInteractions", "setMcqInteractions", "ticketInteractions", "setTicketInteractions",
   "isChatDisabled", "setIsChatDisabled", "messagesEndRef", "currentMessageRef",
   "handleSendMessage", "handleMcqAnswerSelect", "handleMcqSubmit",
   "handleTicketSubmit", "handleTicketChange", "handleTicketModification",
   "e",
   "Date", "JSON", "Math", "Object", "fetch", "console", "TextDecoder", "Error",
   "window", "document", "Promise", "Number", "String", "Boolean", "Array", "Set", "Map"]

/-- Outcome of the Enter-key branch of the textarea's onKeyDown. -/
inductive KeyDispatch
  | ticketModification
  | sendMessage
deriving DecidableEq, Repr

/-- The Enter-key branch (part_013 lines 882-889): after preventDefault
it branches on `ticketState?.submitted`.  Evaluating that expression
first resolves the identifier `ticketState` in scope; an unresolved
identifier is a ReferenceError, returned as `.error` with the offending
name.  `submittedOf` supplies the value the identifier would have if it
resolved. -/
def enterKeyDispatch (scope : List String) (submittedOf : String → Bool) :
    Except String KeyDispatch :=
  if "ticketState" ∈ scope then
    .ok (if submittedOf "ticketState" then .ticketModification else .sendMessage)
  else
    .error "ticketState"

/-- The send button's onClick dispatch (part_013 line 908): a submitted
ticket routes the input to handleTicketModification, otherwise to
handleSendMessage. -/
def sendButtonDispatch (hasSubmitted : Bool) : KeyDispatch :=
  if hasSubmitted then .ticketModification else .sendMessage

end TestAgent

namespace Planner

/-- Modelled from the spec: the FastAPI/LangGraph planner states of
spec section 4.4 are not part of the sources under src/, so the state
set is taken verbatim from that section. -/
inductive Phase
  | awaitingQuestion
  | retrieving
  | awaitingClarificationReply
  | composingAnswer
  | buildingTicket
  | awaitingTicketEdit
  | done
deriving DecidableEq, Repr

/-- Modelled from the spec: the configured maximum number of retrieval
attempts, default 5 (spec sections 3 and 4.4). -/
def maxRetrievalAttempts : Nat := 5

/-- Modelled from the spec: the per-session planner state with its
retrieval budget counter (spec section 3, Session). -/
structure PlannerState where
  phase : Phase
  retrievalAttemptCount : Nat
deriving DecidableEq, Repr

/-- Modelled from the spec: the planner transitions of spec section 4.4
(the planner, retrieval-execution, clarification and ticket nodes are
not under src/).  A retrieval round is only enabled while the counter is
below the configured maximum; a new user question resets the counter;
every other transition leaves the counter unchanged. -/
inductive Step : PlannerState → PlannerState → Prop
  | startRetrieving (n : Nat) :
      Step ⟨.awaitingQuestion, n⟩ ⟨.retrieving, 0⟩
  | answerDirect (n : Nat) :
      Step ⟨.awaitingQuestion, n⟩ ⟨.composingAnswer, 0⟩
  | askClarification (n : Nat) :
      Step ⟨.awaitingQuestion, n⟩ ⟨.awaitingClarificationReply, n⟩
  | clarificationReply (n : Nat) :
      Step ⟨.awaitingClarificationReply, n⟩ ⟨.awaitingQuestion, n⟩
  | retrieveMore (n : Nat) (h : n < maxRetrievalAttempts) :
      Step ⟨.retrieving, n⟩ ⟨.retrieving, n + 1⟩
  | composeFromEvidence (n : Nat) :
      Step ⟨.retrieving, n⟩ ⟨.composingAnswer, n⟩
  | escalate (n : Nat) :
      Step ⟨.retrieving, n⟩ ⟨.buildingTicket, n⟩
  | answered (n : Nat) :
      Step ⟨.composingAnswer, n⟩ ⟨.awaitingQuestion, n⟩
  | ticketSubmitted (n : Nat) :
      Step ⟨.buildingTicket, n⟩ ⟨.awaitingTicketEdit, n⟩
  | editInstruction (n : Nat) :
      Step ⟨.awaitingTicketEdit, n⟩ ⟨.awaitingTicketEdit, n⟩
  | finish (n : Nat) :
      Step ⟨.awaitingTicketEdit, n⟩ ⟨.done, n⟩

/-- Planner states reachable from a fresh session. -/
inductive Reachable : PlannerState → Prop
  | init : Reachable ⟨.awaitingQuestion, 0⟩
  | step {s s' : PlannerState} : Reachable s → Step s s' → Reachable s'

end Planner

namespace Clarification

/-- Modelled from the spec: the session attribute pending_clarification
of spec section 3 (an optional open MCQ awaiting a reply); the
clarification node owning it is not under src/. -/
structure ClarSession where
  pendingClarification : Option TestAgent.MCQData
deriving DecidableEq, Repr

/-- Modelled from the spec: the error of spec sections 4.6 and 7 raised
when a clarification is requested while one is outstanding. -/
inductive ClarError
  | clarificationAlreadyPending
deriving DecidableEq, Repr

/-- Modelled from the spec: `ask(question, options)` of spec section
4.6 - it opens the clarification when none is pending and fails with
ClarificationAlreadyPending otherwise. -/
def ask (s : ClarSession) (q : String) (options : List String) :
    Except ClarError ClarSession :=
  match s.pendingClarification with
  | some _ => .error .clarificationAlreadyPending
  | none => .ok { pendingClarification := some ⟨q, options⟩ }

/-- Number of clarifications currently open in a session. -/
def openCount (s : ClarSession) : Nat :=
  match s.pendingClarification with
  | some _ => 1
  | none => 0

end Clarification

namespace Analytics

/-! Shallow embedding of the analytics backend query layer
(src/analytics/backend/src/db/queries.ts).  Each Prisma table is a list
of rows; dates are epoch milliseconds; Prisma aggregate calls
(count, groupBy, aggregate _avg, findMany with orderBy) are modelled as
pure list operations.  The ordering `orderBy: id` is realised with
insertion sort, whose output order is what the SQL contract
guarantees. -/

/-- One row of the customer_support_chatbot_ai table, restricted to the
columns queries.ts reads. -/
structure ChatRecord where
  id : Nat
  session_id : Option String
  user_id : Option String
  theme : Option String
  question : String
  answer : String
  date_asked : Option Nat
  duration : Option Nat
  tokens_sent : Option Nat
  tokens_received : Option Nat
deriving DecidableEq, Repr

/-- One row of the support_requests table, restricted to the columns
queries.ts reads. -/
structure SupportRequest where
  session_id : Option String
  user_id : Option String
  theme : Option String
  date_added : Option Nat
deriving DecidableEq, Repr

/-- The two tables the summary and session queries touch. -/
structure Db where
  chat : List ChatRecord
  support : List SupportRequest
deriving DecidableEq, Repr

/-- SummaryFilters from queries.ts (the `from` and `to` fields are
renamed dateFrom and dateTo). -/
structure SummaryFilters where
  dateFrom : Option Nat := none
  dateTo : Option Nat := none
  theme : Option String := none
  userId : Option String := none
deriving DecidableEq, Repr

/-- The date_asked / date_added range filter produced by
buildDateFilter: only bounds that are present constrain, and a null
date fails any present bound. -/
def matchesDateRange (lo hi : Option Nat) (d : Option Nat) : Bool :=
  (match lo with
   | some l => (match d with | some dv => l ≤ dv | none => false)
   | none => true) &&
  (match hi with
   | some h => (match d with | some dv => dv ≤ h | none => false)
   | none => true)

/-- buildChatbotWhere (queries.ts lines 22-30): the theme and user_id
equality filters apply only to truthy filter values, and the date filter
applies only when at least one bound is given. -/
def matchesChatbotWhere (flt : SummaryFilters) (r : ChatRecord) : Bool :=
  (match flt.theme with
   | some th => if jsTruthy th then r.theme = some th else true
   | none => true) &&
  (match flt.userId with
   | some u => if jsTruthy u then r.user_id = some u else true
   | none => true) &&
  (if flt.dateFrom.isSome || flt.dateTo.isSome then
     matchesDateRange flt.dateFrom flt.dateTo r.date_asked
   else true)

/-- buildSupportRequestWhere (queries.ts lines 32-40): the same filters
over date_added. -/
def matchesSupportWhere (flt : SummaryFilters) (r : SupportRequest) : Bool :=
  (match flt.theme with
   | some th => if jsTruthy th then r.theme = some th else true
   | none => true) &&
  (match flt.userId with
   | some u => if jsTruthy u then r.user_id = some u else true
   | none => true) &&
  (if flt.dateFrom.isSome || flt.dateTo.isSome then
     matchesDateRange flt.dateFrom flt.dateTo r.date_added
   else true)

/-- The chat rows matching the filter (every query below starts from
this `where`). -/
def filteredChat (db : Db) (flt : SummaryFilters) : List ChatRecord :=
  db.chat.filter (matchesChatbotWhere flt)

/-- The Prisma insensitive `contains: 'idk'` filter on the answer
column (queries.ts lines 69-72). -/
def answerIsIdk (r : ChatRecord) : Bool :=
  containsSub "idk".data (jsToLower r.answer).data

/-- groupBy over a nullable key: the distinct key values, in first-use
order (one output row per distinct value, as SQL GROUP BY yields). -/
def groupKeys (keys : List (Option String)) : List (Option String) :=
  keys.foldl (fun acc k => if k ∈ acc then acc else acc ++ [k]) []

/-- The per-group `_max: id` aggregate of the session groupBy
(queries.ts lines 150-158). -/
def groupMaxId (rs : List ChatRecord) (sid : Option String) : Nat :=
  ((rs.filter (fun r => r.session_id = sid)).map (fun r => r.id)).foldl max 0

/-- The groupBy of fetchRecentSessions (queries.ts lines 150-158): one
group per distinct session_id value of the filtered rows, ordered by the
group's maximum id descending, with `take: 5` applied to the ordered
groups. -/
def recentSessionGroups (rs : List ChatRecord) : List (Option String) :=
  (List.insertionSort
    (fun a b => groupMaxId rs b ≤ groupMaxId rs a)
    (groupKeys (rs.map (fun r => r.session_id)))).take 5

/-- The `.map(group => group.session_id).filter(Boolean)` step
(queries.ts lines 160-162): null and empty session ids are dropped. -/
def recentSessionIds (rs : List ChatRecord) : List String :=
  (recentSessionGroups rs).filterMap
    (fun o => match o with
      | some s => if jsTruthy s then some s else none
      | none => none)

/-- The interactions findMany (queries.ts lines 169-179): the chatbot
where-clause plus membership of the selected session ids, ordered by id
ascending. -/
def recentInteractionRows (db : Db) (flt : SummaryFilters) (sids : List String) : List ChatRecord :=
  List.insertionSort (fun a b => a.id ≤ b.id)
    ((filteredChat db flt).filter
      (fun r => match r.session_id with
        | some s => s ∈ sids
        | none => false))

/-- The support_requests findMany of fetchRecentSessions (queries.ts
lines 180-190, only a session_id membership filter) followed by the
map-and-filter(Boolean) that builds the id set (lines 192-196). -/
def recentSupportIds (db : Db) (sids : List String) : List String :=
  ((db.support.filter
      (fun sr => match sr.session_id with
        | some s => s ∈ sids
        | none => false)).filterMap (fun sr => sr.session_id)).filter jsTruthy

/-- One row of a session's interactions list in the response shape of
fetchRecentSessions. -/
structure InteractionView where
  id : Nat
  question : String
  answer : String
deriving DecidableEq, Repr

/-- One session in the response shape of fetchRecentSessions. -/
structure SessionView where
  sessionId : String
  userId : Option String
  theme : Option String
  interactions : List InteractionView
  hasSupportRequest : Bool
  lastQuestionTime : Option Nat
deriving DecidableEq, Repr

/-- The lastQuestionTime update of queries.ts lines 234-237: a non-null
date replaces the stored one when the stored one is null or smaller. -/
def bumpLastTime (old : Option Nat) (d : Option Nat) : Option Nat :=
  match d with
  | none => old
  | some dv =>
    match old with
    | none => some dv
    | some ov => if ov < dv then some dv else old

/-- One iteration of the sessionsMap-building loop (queries.ts lines
210-238): a record with a null session id is skipped; otherwise the
session entry is created on first sight and the interaction row is
appended to it. -/
def foldSessionRecord (supIds : List String) (m : List (String × SessionView)) (r : ChatRecord) :
    List (String × SessionView) :=
  match r.session_id with
  | none => m
  | some sid =>
    let m1 :=
      if (recGet m sid).isSome then m
      else
        m ++ [(sid,
          { sessionId := sid
            userId := r.user_id
            theme := r.theme
            interactions := []
            hasSupportRequest := sid ∈ supIds
            lastQuestionTime := r.date_asked })]
    mapUpdateAt m1 sid
      (fun sv =>
        { sv with
          interactions := sv.interactions ++ [⟨r.id, r.question, r.answer⟩],
          lastQuestionTime := bumpLastTime sv.lastQuestionTime r.date_asked })

/-- The whole sessionsMap loop (queries.ts lines 210-238). -/
def buildSessionsMap (supIds : List String) (rows : List ChatRecord) :
    List (String × SessionView) :=
  rows.foldl (foldSessionRecord supIds) []

/-- The response row for one selected session id (queries.ts lines
240-247): the built entry when the id was seen among the interaction
rows, an empty fallback session otherwise. -/
def sessionViewFor (m : List (String × SessionView)) (supIds : List String) (sid : String) :
    SessionView :=
  match recGet m sid with
  | some sv => sv
  | none =>
    { sessionId := sid
      userId := none
      theme := none
      interactions := []
      hasSupportRequest := sid ∈ supIds
      lastQuestionTime := none }

/-- The interactions stored under one session id (empty when the id has
no entry); the shape in which the sessionsMap loop is reasoned about. -/
def interactionsAt (m : List (String × SessionView)) (sid : String) : List InteractionView :=
  match recGet m sid with
  | some sv => sv.interactions
  | none => []

/-- fetchRecentSessions (queries.ts lines 147-248). -/
def fetchRecentSessions (db : Db) (flt : SummaryFilters) : List SessionView :=
  let rs := filteredChat db flt
  let sids := recentSessionIds rs
  if sids.isEmpty then []
  else
    let supIds := recentSupportIds db sids
    let rows := recentInteractionRows db flt sids
    let m := buildSessionsMap supIds rows
    sids.map (sessionViewFor m supIds)

/-! fetchSummaryMetrics (queries.ts lines 42-145). -/

/-- The result record of fetchSummaryMetrics; rational numbers stand in
for JavaScript's exact division results. -/
structure SummaryMetrics where
  totalQuestions : Nat
  totalSessions : Nat
  uniqueUsers : Nat
  totalIdk : Nat
  averageDuration : ℚ
  averageQuestionsPerSession : ℚ
  averageIdkPerSession : ℚ
  averageTotalTokens : ℚ
  supportRequestSessionPercentage : ℚ
  idkMessagePercentage : ℚ
  idkSessionPercentage : ℚ
  idkAndSupportRequestSessionPercentage : ℚ
deriving DecidableEq, Repr

/-- The Prisma `_avg` aggregate over a nullable numeric column: null
values are ignored and an empty selection averages to null. -/
def avgOpt (xs : List Nat) : Option ℚ :=
  if xs.isEmpty then none
  else some ((xs.foldl (fun acc x => acc + (x : ℚ)) 0) / (xs.length : ℚ))

/-- fetchSummaryMetrics (queries.ts lines 42-145): counts, per-session
ratios and percentages guarded against empty denominators, and `?? 0`
defaults for the nullable averages. -/
def fetchSummaryMetrics (db : Db) (flt : SummaryFilters) : SummaryMetrics :=
  let rs := filteredChat db flt
  let sups := db.support.filter (matchesSupportWhere flt)
  let totalQuestions := rs.length
  let sessionGroups := groupKeys (rs.map (fun r => r.session_id))
  let uniqueUsers := groupKeys (rs.map (fun r => r.user_id))
  let idkRows := rs.filter answerIsIdk
  let totalIdk := idkRows.length
  let averageDuration := (avgOpt (rs.filterMap (fun r => r.duration))).getD 0
  let avgSent := (avgOpt (rs.filterMap (fun r => r.tokens_sent))).getD 0
  let avgReceived := (avgOpt (rs.filterMap (fun r => r.tokens_received))).getD 0
  let supportRequestSessions := groupKeys (sups.map (fun sr => sr.session_id))
  let idkSessions := groupKeys (idkRows.map (fun r => r.session_id))
  let totalSessions := sessionGroups.length
  let supportSessionIdsTruthy :=
    (supportRequestSessions.filterMap id).filter jsTruthy
  let idkSessionIdsTruthy :=
    (idkSessions.filterMap id).filter jsTruthy
  let idkAndSupport :=
    (supportSessionIdsTruthy.filter (fun s => s ∈ idkSessionIdsTruthy)).length
  { totalQuestions := totalQuestions
    totalSessions := totalSessions
    uniqueUsers := uniqueUsers.length
    totalIdk := totalIdk
    averageDuration := averageDuration
    averageQuestionsPerSession :=
      if 0 < totalSessions then (totalQuestions : ℚ) / (totalSessions : ℚ) else 0
    averageIdkPerSession :=
      if 0 < totalSessions then (totalIdk : ℚ) / (totalSessions : ℚ) else 0
    averageTotalTokens := avgSent + avgReceived
    supportRequestSessionPercentage :=
      if 0 < totalSessions then
        ((supportRequestSessions.length : ℚ) / (totalSessions : ℚ)) * 100
      else 0
    idkMessagePercentage :=
      if 0 < totalQuestions then ((totalIdk : ℚ) / (totalQuestions : ℚ)) * 100 else 0
    idkSessionPercentage :=
      if 0 < totalSessions then ((idkSessions.length : ℚ) / (totalSessions : ℚ)) * 100 else 0
    idkAndSupportRequestSessionPercentage :=
      if 0 < totalSessions then ((idkAndSupport : ℚ) / (totalSessions : ℚ)) * 100 else 0 }

/-! updateKnowledgeBaseItem (queries.ts lines 996-1059). -/

/-- One row of the customer_support_chatbot_data table, as the
KnowledgeBaseItem interface describes it (queries.ts lines 940-948). -/
structure KnowledgeBaseItem where
  id : Nat
  url : String
  type : String
  question : Option String
  answer : Option String
  categories : Option (List String)
  date_added : Nat
deriving DecidableEq, Repr

/-- UpdateKnowledgeBaseInput (queries.ts lines 957-962); the outer
Option encodes presence of the field (`!== undefined`), the inner Option
of url and categories encodes an explicit null. -/
structure UpdateKnowledgeBaseInput where
  question : Option String := none
  answer : Option String := none
  url : Option (Option String) := none
  categories : Option (Option (List String)) := none
deriving DecidableEq, Repr

/-- The categories clean-up `(data.categories || []).filter(c => c &&
c.trim()).map(c => c.trim())` (queries.ts line 1048). -/
def cleanCategories (cs : Option (List String)) : List String :=
  ((cs.getD []).filter (fun c => jsTruthy c && jsTruthy (jsTrim c))).map jsTrim

/-- updateKnowledgeBaseItem (queries.ts lines 996-1059): a missing item
or a provided-but-blank question or answer throws (and then nothing is
written); otherwise every absent field keeps its stored value - except
date_added, which is always set to the update time, and categories,
which falls back to `existing.categories || []`.  Returns the updated
item together with the table after the write. -/
def updateKnowledgeBaseItem (store : List KnowledgeBaseItem) (now : Nat) (id : Nat)
    (data : UpdateKnowledgeBaseInput) :
    Except String (KnowledgeBaseItem × List KnowledgeBaseItem) :=
  match store.find? (fun it => it.id = id) with
  | none => .error "Knowledge base item not found"
  | some existing =>
    match
      (match data.question with
       | some q => if jsTrim q = "" then none else some (some (jsTrim q))
       | none => some existing.question : Option (Option String)) with
    | none => .error "question must not be empty"
    | some newQuestion =>
      match
        (match data.answer with
         | some a => if jsTrim a = "" then none else some (some (jsTrim a))
         | none => some existing.answer : Option (Option String)) with
      | none => .error "answer must not be empty"
      | some newAnswer =>
        let newUrl :=
          match data.url with
          | some u =>
            if jsTruthy (jsTrim (u.getD "")) then jsTrim (u.getD "") else "manual-entry"
          | none => existing.url
        let newCategories :=
          match data.categories with
          | some cs => some (cleanCategories cs)
          | none => some (existing.categories.getD [])
        let updated : KnowledgeBaseItem :=
          { existing with
            question := newQuestion
            answer := newAnswer
            url := newUrl
            categories := newCategories
            date_added := now }
        .ok (updated, store.map (fun it => if it.id = id then updated else it))

/-- The table contents after an update attempt: an error writes
nothing. -/
def runUpdateKnowledgeBaseItem (store : List KnowledgeBaseItem) (now : Nat) (id : Nat)
    (data : UpdateKnowledgeBaseInput) : List KnowledgeBaseItem :=
  match updateKnowledgeBaseItem store now id data with
  | .ok (_, store') => store'
  | .error _ => store

end Analytics

namespace Samples

/-! Concrete states used to evaluate the embedded operations on real
inputs. -/

/-- A page state holding one unsubmitted ticket draft. -/
def draftState : TestAgent.ChatState :=
  { messages :=
      [{ id := "t1", role := TestAgent.Role.agent, content := "",
         ticket := some ⟨"billing", "refund", "user wants a refund"⟩ }]
    inputValue := ""
    isLoading := false
    botThoughts := none
    mcqInteractions := []
    ticketInteractions := [("t1", ⟨"t1", "billing", "refund", "user wants a refund", false⟩)]
    isChatDisabled := false
    currentText := "" }

/-- The same page state after the Submit-Ticket button was pressed. -/
def submittedState : TestAgent.ChatState :=
  TestAgent.handleTicketSubmit draftState "t1"

/-- A page state holding one open (unanswered) MCQ and a typed
question. -/
def openMcqState : TestAgent.ChatState :=
  { messages :=
      [{ id := "m1", role := TestAgent.Role.agent, content := "",
         mcq := some ⟨"Which area?", ["Billing", "Technical", "Write your own"]⟩ }]
    inputValue := "what about refunds?"
    isLoading := false
    botThoughts := none
    mcqInteractions := [("m1", ⟨"m1", none, "", false⟩)]
    ticketInteractions := []
    isChatDisabled := false
    currentText := "" }

/-- A page state holding one in-progress streamed assistant message. -/
def streamState : TestAgent.ChatState :=
  { messages :=
      [{ id := "current_agent_msg", role := TestAgent.Role.agent, content := "Hel" }]
    inputValue := ""
    isLoading := true
    botThoughts := none
    mcqInteractions := []
    ticketInteractions := []
    isChatDisabled := false
    currentText := "Hel" }

/-- A text-token SSE payload. -/
def textEvent : TestAgent.SseData :=
  { output_type := some "text", token := some "lo" }

/-- An MCQ SSE payload. -/
def mcqEvent : TestAgent.SseData :=
  { output_type := some "mcq", question := some "Which area?",
    answers := some ["Billing", "Technical"] }

/-- An SSE payload matching none of the typed shapes. -/
def junkEvent : TestAgent.SseData :=
  { output_type := some "bogus" }

/-- A seven-record chat table spanning six sessions (session s1 has
records 1 and 7), with an empty support table. -/
def recentDb : Analytics.Db :=
  { chat :=
      [⟨1, some "s1", none, none, "q1", "a1", some 1, none, none, none⟩,
       ⟨2, some "s2", none, none, "q2", "a2", some 2, none, none, none⟩,
       ⟨3, some "s3", none, none, "q3", "a3", some 3, none, none, none⟩,
       ⟨4, some "s4", none, none, "q4", "a4", some 4, none, none, none⟩,
       ⟨5, some "s5", none, none, "q5", "a5", some 5, none, none, none⟩,
       ⟨6, some "s6", none, none, "q6", "a6", some 6, none, none, none⟩,
       ⟨7, some "s1", none, none, "q7", "a7", some 7, none, none, none⟩]
    support := [] }

/-- A knowledge-base table with one item whose categories column is
null. -/
def kbStore : List Analytics.KnowledgeBaseItem :=
  [{ id := 1, url := "manual-entry", type := "manual",
     question := some "how to reset", answer := some "use settings",
     categories := none, date_added := 10 }]

end Samples

/-! Helper lemmas about the association-list operations. -/

theorem recGet_mapUpdateAt {β : Type} (m : List (String × β)) (k0 k : String) (f : β → β) :
    recGet (mapUpdateAt m k0 f) k =
      if k = k0 then (recGet m k).map f else recGet m k := by
  induction m with
  | nil =>
    simp [recGet, mapUpdateAt]
  | cons p m ih =>
    simp only [mapUpdateAt, List.map_cons] at ih ⊢
    by_cases h1 : p.1 = k0
    · by_cases h2 : p.1 = k
      · have hk : k = k0 := h2 ▸ h1
        simp [recGet, h1, h2, hk]
      · have hk : ¬ (k0 = k) := fun hh => h2 (h1.trans hh)
        simp [recGet, h1, h2, hk, ih]
    · by_cases h2 : p.1 = k
      · have hk : ¬ (k = k0) := fun h => h1 (h2.trans h)
        simp [recGet, h1, h2, hk]
      · simp [recGet, h1, h2, ih]

theorem recGet_append_ne {β : Type} (m : List (String × β)) (k0 k : String) (v : β)
    (h : k ≠ k0) : recGet (m ++ [(k0, v)]) k = recGet m k := by
  induction m with
  | nil =>
    simp only [List.nil_append, recGet]
    rw [if_neg (fun hh => h hh.symm)]
  | cons p m ih =>
    by_cases h2 : p.1 = k
    · simp [recGet, h2]
    · simp [recGet, h2, ih]

theorem recGet_recSet_ne {β : Type} (m : List (String × β)) (k0 k : String) (v : β)
    (h : k ≠ k0) : recGet (recSet m k0 v) k = recGet m k := by
  unfold recSet
  by_cases hmem : m.any (fun p => p.1 = k0)
  · rw [if_pos hmem]
    have hmap : m.map (fun p => if p.1 = k0 then (k0, v) else p) =
        mapUpdateAt m k0 (fun _ => v) := by
      unfold mapUpdateAt
      apply List.map_congr_left
      intro p _
      by_cases hp : p.1 = k0
      · simp [hp]
      · simp [hp]
    rw [hmap, recGet_mapUpdateAt, if_neg h]
  · rw [if_neg hmem]
    exact recGet_append_ne m k0 k v h

theorem getLast?_map {α β : Type} (f : α → β) (l : List α) :
    (l.map f).getLast? = (l.getLast?).map f := by
  induction l with
  | nil => rfl
  | cons a l ih =>
    cases l with
    | nil => rfl
    | cons b l => simpa using ih

namespace TestAgent

/-- Every selection stored by handleMcqAnswerSelect is the sentinel or
the argument the button passed. -/
theorem mcqAnswerSelect_selected (st : MCQInteractionState) (a s : String)
    (hs : (mcqAnswerSelect st a).selectedAnswer = some s) :
    s = writeYourOwn ∨ s = a := by
  unfold mcqAnswerSelect at hs
  by_cases hw : a = writeYourOwn ∨ a = "Write your own"
  · rw [if_pos hw] at hs
    simp at hs
    left; exact hs.symm
  · rw [if_neg hw] at hs
    simp at hs
    right; exact hs.symm

/-- In every UI-reachable interaction state the stored selection is the
sentinel or one of the offered options. -/
theorem mcqReach_selected_mem {options : List String} {st : MCQInteractionState}
    (h : McqReach options st) :
    ∀ s, st.selectedAnswer = some s → s = writeYourOwn ∨ s ∈ options := by
  induction h with
  | init mid => intro s hs; simp at hs
  | select h harg ih =>
    rename_i st0 a0
    intro s hs
    rcases mcqAnswerSelect_selected st0 a0 s hs with hsw | hsa
    · exact Or.inl hsw
    · rcases harg with harg | harg
      · exact Or.inl (hsa.trans harg)
      · exact Or.inr (hsa ▸ harg)
  | setCustom t h ih =>
    intro s hs
    exact ih s hs
  | back h ih =>
    intro s hs
    exact ih s hs

/-- C6 counterexample: in a UI-reachable state where the user chose
Write-your-own on the MCQ with options Billing / Technical / Write your
own and typed text carrying surrounding whitespace, the effective answer
submitted by handleMcqSubmit is the trimmed text, not the reply passed
through unchanged. -/
theorem mcq_free_text_not_passed_unchanged :
    McqReach ["Billing", "Technical", "Write your own"]
      (mcqSetCustomInput (mcqAnswerSelect ⟨"m1", none, "", false⟩ "write_your_own")
        " the second one ") ∧
    mcqEffectiveAnswer
      (mcqSetCustomInput (mcqAnswerSelect ⟨"m1", none, "", false⟩ "write_your_own")
        " the second one ") = some "the second one" ∧
    " the second one " ≠ "the second one" := by
  refine ⟨?_, by decide, by decide⟩
  exact McqReach.setCustom " the second one "
    (McqReach.select (McqReach.init "m1") (Or.inl rfl))

/-- C6 (amended): for every reply submitted to an open MCQ from a
UI-reachable interaction state, the effective answer is either one of
the offered options (selection branch, where the sentinel is never
forwarded) or the user's own free text trimmed of surrounding
whitespace (Write-your-own branch). -/
theorem mcq_effective_answer_selection_or_trimmed_text :
    ∀ (options : List String) (st : MCQInteractionState) (a : String),
      McqReach options st →
      mcqEffectiveAnswer st = some a →
      (st.isCustomMode = false ∧ st.selectedAnswer = some a ∧
        a ≠ writeYourOwn ∧ a ∈ options) ∨
      ((st.isCustomMode = true ∨ st.selectedAnswer = some writeYourOwn) ∧
        a = jsTrim st.customInput) := by
  intro options st a hreach heff
  simp only [mcqEffectiveAnswer] at heff
  by_cases hc : st.isCustomMode = true ∨ st.selectedAnswer = some writeYourOwn
  · rw [if_pos hc] at heff
    have heff2 : (if jsTrim st.customInput = "" then (none : Option String)
        else some (jsTrim st.customInput)) = some a := heff
    by_cases hz : jsTrim st.customInput = ""
    · rw [if_pos hz] at heff2; simp at heff2
    · rw [if_neg hz] at heff2
      right
      exact ⟨hc, (Option.some_inj.mp heff2).symm⟩
  · rw [if_neg hc] at heff
    push_neg at hc
    obtain ⟨hc1, hc2⟩ := hc
    left
    cases hsel : st.selectedAnswer with
    | none => rw [hsel] at heff; simp at heff
    | some s =>
      rw [hsel] at heff
      have heff2 : (if s = "" then (none : Option String) else some s) = some a := heff
      by_cases hz : s = ""
      · rw [if_pos hz] at heff2; simp at heff2
      · rw [if_neg hz] at heff2
        have hsa : s = a := Option.some_inj.mp heff2
        subst hsa
        have hne : s ≠ writeYourOwn := by
          intro hh
          exact hc2 (by rw [hsel, hh])
        have hmem := mcqReach_selected_mem hreach s hsel
        refine ⟨by simpa using hc1, rfl, hne, ?_⟩
        rcases hmem with hmem | hmem
        · exact absurd hmem hne
        · exact hmem

/-- C6 amended theorem applied to the concrete selection of the option
Billing. -/
theorem mcq_effective_answer_selection_or_trimmed_text_witness :
    ((mcqAnswerSelect ⟨"m1", none, "", false⟩ "Billing").isCustomMode = false ∧
      (mcqAnswerSelect ⟨"m1", none, "", false⟩ "Billing").selectedAnswer = some "Billing" ∧
      "Billing" ≠ writeYourOwn ∧
      "Billing" ∈ ["Billing", "Technical", "Write your own"]) ∨
    (((mcqAnswerSelect ⟨"m1", none, "", false⟩ "Billing").isCustomMode = true ∨
       (mcqAnswerSelect ⟨"m1", none, "", false⟩ "Billing").selectedAnswer = some writeYourOwn) ∧
      "Billing" = jsTrim (mcqAnswerSelect ⟨"m1", none, "", false⟩ "Billing").customInput) :=
  mcq_effective_answer_selection_or_trimmed_text
    ["Billing", "Technical", "Write your own"]
    (mcqAnswerSelect ⟨"m1", none, "", false⟩ "Billing") "Billing"
    (McqReach.select (McqReach.init "m1") (Or.inr (by decide))) (by decide)

/-- C4: handleTicketChange updates exactly the targeted field: the
interaction entry under every other message id is untouched, the
addressed entry keeps all its non-targeted fields (including the
submitted flag), every message with a different id is returned
unchanged, and the addressed message's ticket data changes only in the
targeted field. -/
theorem ticket_edit_updates_only_target :
    ∀ (s : ChatState) (mid : String) (f : TicketField) (v : String),
      ((handleTicketChange s mid f v).messages = s.messages.map (updateMsgTicket mid f v)) ∧
      (∀ k, k ≠ mid →
        recGet (handleTicketChange s mid f v).ticketInteractions k =
          recGet s.ticketInteractions k) ∧
      (∀ t, recGet s.ticketInteractions mid = some t →
        recGet (handleTicketChange s mid f v).ticketInteractions mid =
          some (tiSetField t f v)) ∧
      (∀ t g, g ≠ f → tiField (tiSetField t f v) g = tiField t g) ∧
      (∀ t : TicketInteractionState, tiField (tiSetField t f v) f = v ∧
        (tiSetField t f v).submitted = t.submitted ∧
        (tiSetField t f v).messageId = t.messageId) ∧
      (∀ m : Message, m.id ≠ mid → updateMsgTicket mid f v m = m) ∧
      (∀ (m : Message) (td : TicketData), m.id = mid → m.ticket = some td →
        (updateMsgTicket mid f v m).ticket = some (tdSetField td f v)) ∧
      (∀ td g, g ≠ f → tdField (tdSetField td f v) g = tdField td g) ∧
      (∀ td, tdField (tdSetField td f v) f = v) := by
  intro s mid f v
  refine ⟨rfl, ?_, ?_, ?_, ?_, ?_, ?_, ?_, ?_⟩
  · intro k hk
    have h := recGet_mapUpdateAt s.ticketInteractions mid k (fun t => tiSetField t f v)
    rw [if_neg hk] at h
    exact h
  · intro t ht
    have h := recGet_mapUpdateAt s.ticketInteractions mid mid (fun t => tiSetField t f v)
    rw [if_pos rfl, ht] at h
    exact h
  · intro t g hg
    cases f <;> cases g <;> simp_all [tiField, tiSetField]
  · intro t
    cases f <;> simp [tiField, tiSetField]
  · intro m hm
    simp [updateMsgTicket, hm]
  · intro m td h1 h2
    simp [updateMsgTicket, h1, h2]
  · intro td g hg
    cases f <;> cases g <;> simp_all [tdField, tdSetField]
  · intro td
    cases f <;> simp [tdField, tdSetField]

/-- C4 theorem applied to a concrete title edit of the sample draft. -/
theorem ticket_edit_updates_only_target_witness :
    recGet (handleTicketChange Samples.draftState "t1" TicketField.title "New title").ticketInteractions
        "other" = recGet Samples.draftState.ticketInteractions "other" ∧
    recGet (handleTicketChange Samples.draftState "t1" TicketField.title "New title").ticketInteractions
        "t1" = some ⟨"t1", "billing", "New title", "user wants a refund", false⟩ :=
  ⟨(ticket_edit_updates_only_target Samples.draftState "t1" TicketField.title "New title").2.1
      "other" (by decide),
   ((ticket_edit_updates_only_target Samples.draftState "t1" TicketField.title "New title").2.2.1
      ⟨"t1", "billing", "refund", "user wants a refund", false⟩ (by decide)).trans (by decide)⟩

end TestAgent

namespace TestAgent

/-- The text-token branch always leaves the accumulated content as the
last message of the list: the in-progress assistant message ends the
list and carries the extended text. -/
theorem appendToken_last (s : ChatState) (tok : String) :
    (appendToken s tok).currentText = s.currentText ++ tok ∧
    ∃ m' : Message,
      (appendToken s tok).messages.getLast? = some m' ∧
      m'.id = currentAgentMsgId ∧ m'.role = Role.agent ∧
      m'.content = s.currentText ++ tok := by
  refine ⟨rfl, ?_⟩
  simp only [appendToken]
  split
  next lastMsg hl =>
    split
    next hcond =>
      refine ⟨{ lastMsg with content := s.currentText ++ tok }, ?_, hcond.2, hcond.1, rfl⟩
      rw [getLast?_map, hl]
      simp [hcond.2]
    next hcond =>
      exact ⟨⟨currentAgentMsgId, Role.agent, s.currentText ++ tok, none, none⟩,
        by simp, rfl, rfl, rfl⟩
  next hl =>
    exact ⟨⟨currentAgentMsgId, Role.agent, s.currentText ++ tok, none, none⟩,
      by simp, rfl, rfl, rfl⟩

/-- C5: every SSE payload consumed from the chat stream is handled by
its typed shape, in the source's guard order: a node payload sets only
the bot-thoughts indicator; a text payload (no node field) appends its
token to the in-progress assistant message, which then ends the
message list with the accumulated content; an mcq or ticket payload
(no node field; the distinct output_type rules the text branch out)
removes any in-progress streamed assistant message and appends exactly
one structured message; and only a payload matching none of the four
shapes leaves the state untouched, rather than aborting the stream. -/
theorem sse_event_kinds :
    ∀ (freshId : String) (d : SseData) (s : ChatState),
      (optTruthy d.node = true →
        processSseData freshId d s = { s with botThoughts := d.node }) ∧
      (optTruthy d.node = false →
        d.output_type = some "text" → optTruthy d.token = true →
        (processSseData freshId d s).currentText = s.currentText ++ (d.token.getD "") ∧
        (∃ m' : Message,
          (processSseData freshId d s).messages.getLast? = some m' ∧
          m'.id = currentAgentMsgId ∧ m'.role = Role.agent ∧
          m'.content = s.currentText ++ (d.token.getD ""))) ∧
      (optTruthy d.node = false →
        d.output_type = some "mcq" →
        optTruthy d.question = true → d.answers.isSome = true →
        (processSseData freshId d s).messages =
          (s.messages.filter (fun m => m.id ≠ currentAgentMsgId)) ++
            [{ id := freshId, role := Role.agent, content := "",
               mcq := some ⟨d.question.getD "", d.answers.getD []⟩ }]) ∧
      (optTruthy d.node = false →
        d.output_type = some "ticket" →
        optTruthy d.category = true → optTruthy d.title = true →
        optTruthy d.description = true →
        (processSseData freshId d s).messages =
          (s.messages.filter (fun m => m.id ≠ currentAgentMsgId)) ++
            [{ id := freshId, role := Role.agent, content := "",
               ticket := some ⟨d.category.getD "", d.title.getD "",
                 d.description.getD ""⟩ }]) ∧
      (optTruthy d.node = false →
        ¬ (d.output_type = some "text" ∧ optTruthy d.token = true) →
        ¬ (d.output_type = some "mcq" ∧ optTruthy d.question = true ∧
            d.answers.isSome = true) →
        ¬ (d.output_type = some "ticket" ∧ optTruthy d.category = true ∧
            optTruthy d.title = true ∧ optTruthy d.description = true) →
        processSseData freshId d s = s) := by
  intro freshId d s
  refine ⟨?_, ?_, ?_, ?_, ?_⟩
  · intro h1
    unfold processSseData
    rw [if_pos h1]
  · intro h1 h2 h3
    have hpr : processSseData freshId d s = appendToken s (d.token.getD "") := by
      unfold processSseData
      rw [if_neg (by simp [h1] : ¬ optTruthy d.node = true), if_pos ⟨h2, h3⟩]
    rcases appendToken_last s (d.token.getD "") with ⟨hct, m', hm⟩
    exact ⟨by rw [hpr]; exact hct, ⟨m', by rw [hpr]; exact hm.1,
      hm.2.1, hm.2.2.1, hm.2.2.2⟩⟩
  · intro h1 h2 h3 h4
    have htext : ¬ (d.output_type = some "text" ∧ optTruthy d.token = true) := by
      rintro ⟨ht, -⟩
      rw [h2] at ht
      exact absurd (Option.some_inj.mp ht) (by decide)
    have hpr : processSseData freshId d s =
        mcqArrival s freshId (d.question.getD "") (d.answers.getD []) := by
      unfold processSseData
      rw [if_neg (by simp [h1] : ¬ optTruthy d.node = true), if_neg htext,
        if_pos ⟨h2, h3, h4⟩]
    rw [hpr]
    rfl
  · intro h1 h2 h3 h4 h5
    have htext : ¬ (d.output_type = some "text" ∧ optTruthy d.token = true) := by
      rintro ⟨ht, -⟩
      rw [h2] at ht
      exact absurd (Option.some_inj.mp ht) (by decide)
    have hmcq : ¬ (d.output_type = some "mcq" ∧ optTruthy d.question = true ∧
        d.answers.isSome = true) := by
      rintro ⟨ht, -⟩
      rw [h2] at ht
      exact absurd (Option.some_inj.mp ht) (by decide)
    have hpr : processSseData freshId d s =
        ticketArrival s freshId
          ⟨d.category.getD "", d.title.getD "", d.description.getD ""⟩ := by
      unfold processSseData
      rw [if_neg (by simp [h1] : ¬ optTruthy d.node = true), if_neg htext,
        if_neg hmcq, if_pos ⟨h2, h3, h4, h5⟩]
    rw [hpr]
    rfl
  · intro h1 h2 h3 h4
    unfold processSseData
    rw [if_neg (by simp [h1] : ¬ optTruthy d.node = true), if_neg h2, if_neg h3,
      if_neg h4]

/-- C5 theorem applied to concrete payloads against a page state that
holds an in-progress streamed message: the text token extends it, the
mcq payload replaces it with one structured message, and a payload of
unknown shape changes nothing. -/
theorem sse_event_kinds_witness :
    ((processSseData "f1" Samples.textEvent Samples.streamState).currentText =
        Samples.streamState.currentText ++ (Samples.textEvent.token.getD "") ∧
      (∃ m' : Message,
        (processSseData "f1" Samples.textEvent Samples.streamState).messages.getLast? =
          some m' ∧
        m'.id = currentAgentMsgId ∧ m'.role = Role.agent ∧
        m'.content =
          Samples.streamState.currentText ++ (Samples.textEvent.token.getD ""))) ∧
    ((processSseData "m2" Samples.mcqEvent Samples.streamState).messages =
      (Samples.streamState.messages.filter (fun m => m.id ≠ currentAgentMsgId)) ++
        [{ id := "m2", role := Role.agent, content := "",
           mcq := some ⟨Samples.mcqEvent.question.getD "",
             Samples.mcqEvent.answers.getD []⟩ }]) ∧
    processSseData "x1" Samples.junkEvent Samples.streamState = Samples.streamState :=
  ⟨(sse_event_kinds "f1" Samples.textEvent Samples.streamState).2.1
      (by decide) (by decide) (by decide),
   (sse_event_kinds "m2" Samples.mcqEvent Samples.streamState).2.2.1
      (by decide) (by decide) (by decide) (by decide),
   (sse_event_kinds "x1" Samples.junkEvent Samples.streamState).2.2.2.2
      (by decide) (by decide) (by decide) (by decide)⟩

/-- A single UI or server event never rewrites the interaction entry of
an already-submitted ticket draft (server events are keyed by freshly
minted clock-derived ids, so their key differs from the draft's). -/
theorem uiStep_keeps_submitted_entry :
    ∀ (s : ChatState) (ev : UiEvent) (mid : String) (t : TicketInteractionState),
      recGet s.ticketInteractions mid = some t → t.submitted = true →
      UiEvent.freshKey ev ≠ some mid →
      recGet (uiStep s ev).ticketInteractions mid = some t := by
  intro s ev mid t ht hsub hfresh
  cases ev with
  | directEdit mid' f v =>
    show recGet (match recGet s.ticketInteractions mid' with
      | some t' => if t'.submitted then s else handleTicketChange s mid' f v
      | none => s).ticketInteractions mid = some t
    cases hGet : recGet s.ticketInteractions mid' with
    | none => simpa using ht
    | some t' =>
      by_cases hsub' : t'.submitted
      · simp only [hGet, if_pos hsub']
        exact ht
      · simp only [hGet, if_neg hsub']
        have h := recGet_mapUpdateAt s.ticketInteractions mid' mid
          (fun u => tiSetField u f v)
        by_cases hmm : mid = mid'
        · subst hmm
          rw [hGet] at ht
          have : t' = t := Option.some_inj.mp ht
          exact absurd (this ▸ hsub) hsub'
        · show recGet (mapUpdateAt s.ticketInteractions mid'
              (fun u => tiSetField u f v)) mid = some t
          rw [h, if_neg hmm, ht]
  | ticketSubmit mid' =>
    show recGet (handleTicketSubmit s mid').ticketInteractions mid = some t
    unfold handleTicketSubmit
    cases hGet : recGet s.ticketInteractions mid' with
    | none => exact ht
    | some t' =>
      show recGet (mapUpdateAt s.ticketInteractions mid'
          (fun u => { u with submitted := true })) mid = some t
      rw [recGet_mapUpdateAt]
      by_cases hmm : mid = mid'
      · subst hmm
        rw [hGet] at ht
        have htt : t' = t := Option.some_inj.mp ht
        subst htt
        rw [hGet, if_pos rfl]
        have hid : { t' with submitted := true } = t' := by
          cases t'
          simp_all
        simp [hid]
      · rw [if_neg hmm, ht]
  | serverTicket freshId td =>
    have hne : mid ≠ freshId := by
      intro hh
      exact hfresh (by rw [hh]; rfl)
    show recGet (recSet s.ticketInteractions freshId _) mid = some t
    rw [recGet_recSet_ne _ _ _ _ hne, ht]
  | serverMcq freshId q ans => exact ht
  | serverText tok => exact ht
  | serverNode nm => exact ht
  | mcqSelect mid' a => exact ht
  | plainSend =>
    show recGet (handleSendMessageLocal s).ticketInteractions mid = some t
    unfold handleSendMessageLocal
    split_ifs <;> exact ht

/-- C3: once a ticket draft's submitted flag is true, a direct edit of
its category, title or description is not delivered (the inputs are
disabled, so the event is a no-op on the state), and no trace of
further UI or server events - including the edit-instruction path,
which materialises a new draft under a fresh id - ever changes any
field of the submitted draft's interaction entry. -/
theorem submitted_ticket_fields_frozen :
    (∀ (s : ChatState) (mid : String) (f : TicketField) (v : String)
        (t : TicketInteractionState),
      recGet s.ticketInteractions mid = some t → t.submitted = true →
      uiStep s (UiEvent.directEdit mid f v) = s) ∧
    (∀ (evs : List UiEvent) (s : ChatState) (mid : String) (t : TicketInteractionState),
      recGet s.ticketInteractions mid = some t → t.submitted = true →
      (∀ ev ∈ evs, UiEvent.freshKey ev ≠ some mid) →
      recGet (uiRun s evs).ticketInteractions mid = some t) := by
  constructor
  · intro s mid f v t ht hsub
    show (match recGet s.ticketInteractions mid with
      | some t' => if t'.submitted then s else handleTicketChange s mid f v
      | none => s) = s
    rw [ht]
    simp [hsub]
  · intro evs
    induction evs with
    | nil =>
      intro s mid t ht hsub hfr
      exact ht
    | cons ev evs ih =>
      intro s mid t ht hsub hfr
      have hstep := uiStep_keeps_submitted_entry s ev mid t ht hsub
        (hfr ev (List.mem_cons_self ev evs))
      exact ih (uiStep s ev) mid t hstep hsub
        (fun e he => hfr e (List.mem_cons_of_mem ev he))

/-- C3 theorem applied to the sample submitted draft and a concrete
event trace: a direct hostile edit, a fresh server draft from the
edit-instruction path and a plain send leave the submitted entry
untouched. -/
theorem submitted_ticket_fields_frozen_witness :
    uiStep Samples.submittedState
        (UiEvent.directEdit "t1" TicketField.title "hacked") = Samples.submittedState ∧
    recGet (uiRun Samples.submittedState
        [UiEvent.directEdit "t1" TicketField.title "hacked",
         UiEvent.serverTicket "t2" ⟨"billing", "refund v2", "updated description"⟩,
         UiEvent.plainSend]).ticketInteractions "t1" =
      some ⟨"t1", "billing", "refund", "user wants a refund", true⟩ :=
  ⟨submitted_ticket_fields_frozen.1 Samples.submittedState "t1" TicketField.title "hacked"
      ⟨"t1", "billing", "refund", "user wants a refund", true⟩ (by decide) (by decide),
   submitted_ticket_fields_frozen.2
      [UiEvent.directEdit "t1" TicketField.title "hacked",
       UiEvent.serverTicket "t2" ⟨"billing", "refund v2", "updated description"⟩,
       UiEvent.plainSend]
      Samples.submittedState "t1"
      ⟨"t1", "billing", "refund", "user wants a refund", true⟩
      (by decide) (by decide) (by decide)⟩

/-- C2 (code bug): the Enter-key branch of the chat textarea (part_013
line 884) dereferences the identifier ticketState, which is declared
nowhere in the scopes enclosing the handler, so the branch raises a
ReferenceError for every possible value environment instead of routing
to handleTicketModification - while the send button's dispatch
(part_013 line 908) does perform the submitted-ticket redirect. -/
theorem enter_key_dispatch_reference_error :
    ("ticketState" ∉ testAgentNamesInScope) ∧
    (∀ submittedOf : String → Bool,
      enterKeyDispatch testAgentNamesInScope submittedOf = Except.error "ticketState") ∧
    sendButtonDispatch true = KeyDispatch.ticketModification := by
  refine ⟨by decide, ?_, by decide⟩
  intro submittedOf
  unfold enterKeyDispatch
  rw [if_neg (by decide)]

end TestAgent

namespace Clarification

/-- C7: at most one clarification is open at any time (the session
holds a single optional pending clarification), asking a second while
one is outstanding fails with ClarificationAlreadyPending and leaves
the session unchanged, and while an MCQ is open and unanswered in the
chat page the plain-send path is a no-op, so no new plain user message
enters the conversation. -/
theorem single_open_clarification :
    (∀ s : ClarSession, openCount s ≤ 1) ∧
    (∀ (s : ClarSession) (q : String) (opts : List String),
      s.pendingClarification.isSome = true →
      ask s q opts = Except.error ClarError.clarificationAlreadyPending) ∧
    (∀ st : TestAgent.ChatState, TestAgent.hasActiveMcq st = true →
      TestAgent.handleSendMessageLocal st = st) := by
  refine ⟨?_, ?_, ?_⟩
  · intro s
    cases s with
    | mk p => cases p <;> simp [openCount]
  · intro s q opts h
    unfold ask
    cases hp : s.pendingClarification with
    | none => rw [hp] at h; simp at h
    | some m => rfl
  · intro st h
    unfold TestAgent.handleSendMessageLocal
    by_cases h1 : ¬ jsTruthy (jsTrim st.inputValue) = true ∨ st.isLoading = true
    · rw [if_pos h1]
    · rw [if_neg h1, if_pos h]

/-- C7 theorem applied to a session with an open clarification and to
the sample page state with an open MCQ and a typed question. -/
theorem single_open_clarification_witness :
    ask ⟨some ⟨"Which area?", ["Billing", "Technical"]⟩⟩ "Another?" ["x"] =
      Except.error ClarError.clarificationAlreadyPending ∧
    TestAgent.handleSendMessageLocal Samples.openMcqState = Samples.openMcqState :=
  ⟨single_open_clarification.2.1 ⟨some ⟨"Which area?", ["Billing", "Technical"]⟩⟩
      "Another?" ["x"] (by decide),
   single_open_clarification.2.2 Samples.openMcqState (by decide)⟩

end Clarification

namespace Planner

/-- C1: in every reachable planner state the retrieval attempt counter
never exceeds the configured maximum of 5, and from a retrieving state
whose counter has reached the maximum every possible transition either
composes an answer or escalates to a ticket - never another retrieval
round - leaving the counter at the maximum. -/
theorem retrieval_budget_bound :
    (∀ s : PlannerState, Reachable s →
      s.retrievalAttemptCount ≤ maxRetrievalAttempts) ∧
    (∀ s' : PlannerState, Step ⟨Phase.retrieving, maxRetrievalAttempts⟩ s' →
      (s'.phase = Phase.composingAnswer ∨ s'.phase = Phase.buildingTicket) ∧
      s'.retrievalAttemptCount = maxRetrievalAttempts) := by
  constructor
  · intro s h
    induction h with
    | init => exact Nat.zero_le _
    | step hr hstep ih =>
      cases hstep with
      | startRetrieving n => exact Nat.zero_le _
      | answerDirect n => exact Nat.zero_le _
      | askClarification n => exact ih
      | clarificationReply n => exact ih
      | retrieveMore n h => exact h
      | composeFromEvidence n => exact ih
      | escalate n => exact ih
      | answered n => exact ih
      | ticketSubmitted n => exact ih
      | editInstruction n => exact ih
      | finish n => exact ih
  · intro s' hstep
    cases hstep with
    | retrieveMore n h => exact absurd h (lt_irrefl _)
    | composeFromEvidence n => exact ⟨Or.inl rfl, rfl⟩
    | escalate n => exact ⟨Or.inr rfl, rfl⟩

/-- C1 theorem applied to a concrete reachable state with two attempts
spent and to the escalation step taken at the exhausted budget. -/
theorem retrieval_budget_bound_witness :
    (⟨Phase.retrieving, 2⟩ : PlannerState).retrievalAttemptCount ≤ maxRetrievalAttempts ∧
    ((⟨Phase.buildingTicket, maxRetrievalAttempts⟩ : PlannerState).phase =
        Phase.composingAnswer ∨
      (⟨Phase.buildingTicket, maxRetrievalAttempts⟩ : PlannerState).phase =
        Phase.buildingTicket) :=
  ⟨retrieval_budget_bound.1 ⟨Phase.retrieving, 2⟩
      (Reachable.step
        (Reachable.step (Reachable.step Reachable.init (Step.startRetrieving 0))
          (Step.retrieveMore 0 (by decide)))
        (Step.retrieveMore 1 (by decide))),
   (retrieval_budget_bound.2 ⟨Phase.buildingTicket, maxRetrievalAttempts⟩
      (Step.escalate maxRetrievalAttempts)).1⟩

end Planner

namespace Analytics

/-- The distinct-key accumulator never loses entries: starting from a
non-empty accumulator the groupBy key fold stays non-empty. -/
theorem groupKeys_foldl_ne_nil :
    ∀ (ks acc : List (Option String)), acc ≠ [] →
      ks.foldl (fun acc k => if k ∈ acc then acc else acc ++ [k]) acc ≠ [] := by
  intro ks
  induction ks with
  | nil => intro acc h; exact h
  | cons k ks ih =>
    intro acc h
    refine ih _ ?_
    by_cases hk : k ∈ acc
    · simpa [hk] using h
    · simp [hk]

/-- A non-empty row set always produces at least one session group. -/
theorem groupKeys_cons_ne_nil (k : Option String) (ks : List (Option String)) :
    groupKeys (k :: ks) ≠ [] := by
  unfold groupKeys
  rw [List.foldl_cons]
  refine groupKeys_foldl_ne_nil ks _ ?_
  simp

/-- C9: fetchSummaryMetrics is total on empty data: with zero sessions
in the filtered data both per-session ratios and all four percentage
metrics are 0, with zero questions the idk-message percentage is 0, and
with no filtered rows the nullable aggregate averages default to 0 - no
division by zero or undefined value reaches the result. -/
theorem summary_metrics_safe_on_empty :
    ∀ (db : Db) (flt : SummaryFilters),
      ((fetchSummaryMetrics db flt).totalSessions = 0 →
        (fetchSummaryMetrics db flt).averageQuestionsPerSession = 0 ∧
        (fetchSummaryMetrics db flt).averageIdkPerSession = 0 ∧
        (fetchSummaryMetrics db flt).supportRequestSessionPercentage = 0 ∧
        (fetchSummaryMetrics db flt).idkMessagePercentage = 0 ∧
        (fetchSummaryMetrics db flt).idkSessionPercentage = 0 ∧
        (fetchSummaryMetrics db flt).idkAndSupportRequestSessionPercentage = 0) ∧
      ((fetchSummaryMetrics db flt).totalQuestions = 0 →
        (fetchSummaryMetrics db flt).idkMessagePercentage = 0) ∧
      (filteredChat db flt = [] →
        (fetchSummaryMetrics db flt).averageDuration = 0 ∧
        (fetchSummaryMetrics db flt).averageTotalTokens = 0) := by
  intro db flt
  refine ⟨?_, ?_, ?_⟩
  · intro h
    have hrs : filteredChat db flt = [] := by
      cases hr : filteredChat db flt with
      | nil => rfl
      | cons r rest =>
        exfalso
        simp only [fetchSummaryMetrics, hr] at h
        exact groupKeys_cons_ne_nil _ _ (List.length_eq_zero.mp h)
    simp [fetchSummaryMetrics, hrs, groupKeys]
  · intro h
    have hrs : filteredChat db flt = [] := by
      simp only [fetchSummaryMetrics] at h
      exact List.length_eq_zero.mp h
    simp [fetchSummaryMetrics, hrs, groupKeys]
  · intro hrs
    simp [fetchSummaryMetrics, hrs, avgOpt]

/-- C9 theorem applied to a database whose chat table is empty while
the support table is not. -/
theorem summary_metrics_safe_on_empty_witness :
    (fetchSummaryMetrics ⟨[], [⟨some "s9", some "u9", none, some 5⟩]⟩ {}).totalSessions = 0 ∧
    ((fetchSummaryMetrics ⟨[], [⟨some "s9", some "u9", none, some 5⟩]⟩ {}).averageQuestionsPerSession = 0 ∧
      (fetchSummaryMetrics ⟨[], [⟨some "s9", some "u9", none, some 5⟩]⟩ {}).averageIdkPerSession = 0 ∧
      (fetchSummaryMetrics ⟨[], [⟨some "s9", some "u9", none, some 5⟩]⟩ {}).supportRequestSessionPercentage = 0 ∧
      (fetchSummaryMetrics ⟨[], [⟨some "s9", some "u9", none, some 5⟩]⟩ {}).idkMessagePercentage = 0 ∧
      (fetchSummaryMetrics ⟨[], [⟨some "s9", some "u9", none, some 5⟩]⟩ {}).idkSessionPercentage = 0 ∧
      (fetchSummaryMetrics ⟨[], [⟨some "s9", some "u9", none, some 5⟩]⟩ {}).idkAndSupportRequestSessionPercentage = 0) :=
  ⟨by decide,
   (summary_metrics_safe_on_empty ⟨[], [⟨some "s9", some "u9", none, some 5⟩]⟩ {}).1 (by decide)⟩

/-- C10 counterexample: updating only the question of a stored item
whose categories column is null rewrites categories to the empty list
(and resets date_added), so a field the caller did not provide - other
than date_added - does not keep its stored value. -/
theorem kb_update_rewrites_null_categories :
    (Samples.kbStore.map (fun it => it.categories)) = [none] ∧
    updateKnowledgeBaseItem Samples.kbStore 20 1 { question := some "how do I reset" } =
      Except.ok
        ({ id := 1, url := "manual-entry", type := "manual",
           question := some "how do I reset", answer := some "use settings",
           categories := some [], date_added := 20 },
         [{ id := 1, url := "manual-entry", type := "manual",
            question := some "how do I reset", answer := some "use settings",
            categories := some [], date_added := 20 }]) ∧
    (some ([] : List String) ≠ (none : Option (List String))) := by
  refine ⟨by decide, by decide, by decide⟩

end Analytics

namespace Analytics

/-- C10 (amended): updateKnowledgeBaseItem keeps the stored value of
every field the caller does not provide, except date_added, which is
always reset to the update time, and categories, which is normalised to
the empty list when the stored value is null; a missing item or a
provided question or answer that is empty after trimming makes the
operation throw, and an error writes nothing to the table. -/
theorem kb_update_frame_amended :
    (∀ (store : List KnowledgeBaseItem) (now id : Nat) (data : UpdateKnowledgeBaseInput)
        (item : KnowledgeBaseItem) (store' : List KnowledgeBaseItem),
      updateKnowledgeBaseItem store now id data = Except.ok (item, store') →
      ∃ existing, store.find? (fun it => it.id = id) = some existing ∧
        (data.question = none → item.question = existing.question) ∧
        (data.answer = none → item.answer = existing.answer) ∧
        (data.url = none → item.url = existing.url) ∧
        (data.categories = none → item.categories = some (existing.categories.getD [])) ∧
        item.date_added = now ∧
        item.id = existing.id ∧
        item.type = existing.type ∧
        store' = store.map (fun it => if it.id = id then item else it)) ∧
    (∀ (store : List KnowledgeBaseItem) (now id : Nat) (data : UpdateKnowledgeBaseInput)
        (e : String),
      updateKnowledgeBaseItem store now id data = Except.error e →
      runUpdateKnowledgeBaseItem store now id data = store) ∧
    (∀ (store : List KnowledgeBaseItem) (now id : Nat) (data : UpdateKnowledgeBaseInput),
      store.find? (fun it => it.id = id) = none →
      updateKnowledgeBaseItem store now id data =
        Except.error "Knowledge base item not found") ∧
    (∀ (store : List KnowledgeBaseItem) (now id : Nat) (data : UpdateKnowledgeBaseInput)
        (q : String),
      data.question = some q → jsTrim q = "" →
      ∃ e, updateKnowledgeBaseItem store now id data = Except.error e) ∧
    (∀ (store : List KnowledgeBaseItem) (now id : Nat) (data : UpdateKnowledgeBaseInput)
        (a : String),
      data.answer = some a → jsTrim a = "" →
      ∃ e, updateKnowledgeBaseItem store now id data = Except.error e) := by
  refine ⟨?_, ?_, ?_, ?_, ?_⟩
  · intro store now id data item store' h
    cases hf : store.find? (fun it => it.id = id) with
    | none =>
      simp only [updateKnowledgeBaseItem, hf] at h
      exact absurd h (by simp)
    | some existing =>
      simp only [updateKnowledgeBaseItem, hf] at h
      cases hq : (match data.question with
          | some q => if jsTrim q = "" then none else some (some (jsTrim q))
          | none => some existing.question : Option (Option String)) with
      | none =>
        simp only [hq] at h
        exact absurd h (by simp)
      | some newQuestion =>
        simp only [hq] at h
        cases ha : (match data.answer with
            | some a => if jsTrim a = "" then none else some (some (jsTrim a))
            | none => some existing.answer : Option (Option String)) with
        | none =>
          simp only [ha] at h
          exact absurd h (by simp)
        | some newAnswer =>
          simp only [ha, Except.ok.injEq, Prod.mk.injEq] at h
          obtain ⟨hitem, hstore⟩ := h
          subst hitem
          refine ⟨existing, rfl, ?_, ?_, ?_, ?_, rfl, rfl, rfl, hstore.symm⟩
          · intro hqn
            rw [hqn] at hq
            exact (Option.some_inj.mp hq).symm
          · intro han
            rw [han] at ha
            exact (Option.some_inj.mp ha).symm
          · intro hun
            show (match data.url with
              | some u =>
                if jsTruthy (jsTrim (u.getD "")) then jsTrim (u.getD "") else "manual-entry"
              | none => existing.url) = existing.url
            rw [hun]
          · intro hcn
            show (match data.categories with
              | some cs => some (cleanCategories cs)
              | none => some (existing.categories.getD [])) =
              some (existing.categories.getD [])
            rw [hcn]
  · intro store now id data e h
    simp [runUpdateKnowledgeBaseItem, h]
  · intro store now id data hf
    simp [updateKnowledgeBaseItem, hf]
  · intro store now id data q hqd hz
    cases hf : store.find? (fun it => it.id = id) with
    | none =>
      exact ⟨"Knowledge base item not found", by simp [updateKnowledgeBaseItem, hf]⟩
    | some existing =>
      refine ⟨"question must not be empty", ?_⟩
      simp only [updateKnowledgeBaseItem, hf, hqd]
      simp [hz]
  · intro store now id data a had hz
    cases hf : store.find? (fun it => it.id = id) with
    | none =>
      exact ⟨"Knowledge base item not found", by simp [updateKnowledgeBaseItem, hf]⟩
    | some existing =>
      cases hq : (match data.question with
          | some q => if jsTrim q = "" then none else some (some (jsTrim q))
          | none => some existing.question : Option (Option String)) with
      | none =>
        refine ⟨"question must not be empty", ?_⟩
        simp only [updateKnowledgeBaseItem, hf, hq]
      | some newQuestion =>
        refine ⟨"answer must not be empty", ?_⟩
        simp only [updateKnowledgeBaseItem, hf, hq, had]
        simp [hz]

/-- C10 amended theorem applied to a concrete update that provides only
the answer: question, url keep their stored values, categories is
normalised from null to the empty list and date_added is reset. -/
theorem kb_update_frame_amended_witness :
    ∃ existing, Samples.kbStore.find? (fun it => it.id = 1) = some existing ∧
      (({ answer := some " updated answer " } : UpdateKnowledgeBaseInput).question = none →
        ({ id := 1, url := "manual-entry", type := "manual",
           question := some "how to reset", answer := some "updated answer",
           categories := some [], date_added := 30 } : KnowledgeBaseItem).question =
          existing.question) ∧
      (({ answer := some " updated answer " } : UpdateKnowledgeBaseInput).answer = none →
        ({ id := 1, url := "manual-entry", type := "manual",
           question := some "how to reset", answer := some "updated answer",
           categories := some [], date_added := 30 } : KnowledgeBaseItem).answer =
          existing.answer) ∧
      (({ answer := some " updated answer " } : UpdateKnowledgeBaseInput).url = none →
        ({ id := 1, url := "manual-entry", type := "manual",
           question := some "how to reset", answer := some "updated answer",
           categories := some [], date_added := 30 } : KnowledgeBaseItem).url =
          existing.url) ∧
      (({ answer := some " updated answer " } : UpdateKnowledgeBaseInput).categories = none →
        ({ id := 1, url := "manual-entry", type := "manual",
           question := some "how to reset", answer := some "updated answer",
           categories := some [], date_added := 30 } : KnowledgeBaseItem).categories =
          some (existing.categories.getD [])) ∧
      ({ id := 1, url := "manual-entry", type := "manual",
         question := some "how to reset", answer := some "updated answer",
         categories := some [], date_added := 30 } : KnowledgeBaseItem).date_added = 30 ∧
      ({ id := 1, url := "manual-entry", type := "manual",
         question := some "how to reset", answer := some "updated answer",
         categories := some [], date_added := 30 } : KnowledgeBaseItem).id = existing.id ∧
      ({ id := 1, url := "manual-entry", type := "manual",
         question := some "how to reset", answer := some "updated answer",
         categories := some [], date_added := 30 } : KnowledgeBaseItem).type = existing.type ∧
      [({ id := 1, url := "manual-entry", type := "manual",
          question := some "how to reset", answer := some "updated answer",
          categories := some [], date_added := 30 } : KnowledgeBaseItem)] =
        Samples.kbStore.map (fun it =>
          if it.id = 1 then
            { id := 1, url := "manual-entry", type := "manual",
              question := some "how to reset", answer := some "updated answer",
              categories := some [], date_added := 30 }
          else it) :=
  kb_update_frame_amended.1 Samples.kbStore 30 1 { answer := some " updated answer " }
    { id := 1, url := "manual-entry", type := "manual",
      question := some "how to reset", answer := some "updated answer",
      categories := some [], date_added := 30 }
    [{ id := 1, url := "manual-entry", type := "manual",
       question := some "how to reset", answer := some "updated answer",
       categories := some [], date_added := 30 }]
    (by decide)

end Analytics

theorem recGet_mem {β : Type} :
    ∀ (m : List (String × β)) (k : String) (v : β),
      recGet m k = some v → (k, v) ∈ m := by
  intro m
  induction m with
  | nil => intro k v h; simp [recGet] at h
  | cons p m ih =>
    intro k v h
    by_cases hp : p.1 = k
    · simp only [recGet, if_pos hp] at h
      have hv : p.2 = v := Option.some_inj.mp h
      have hkv : (k, v) = p := by
        rw [← hp, ← hv]
      rw [hkv]
      exact List.mem_cons_self p m
    · simp only [recGet, if_neg hp] at h
      exact List.mem_cons_of_mem p (ih k v h)

theorem recGet_append_of_none {β : Type} :
    ∀ (m : List (String × β)) (k : String) (v : β),
      recGet m k = none → recGet (m ++ [(k, v)]) k = some v := by
  intro m
  induction m with
  | nil => intro k v h; simp [recGet]
  | cons p m ih =>
    intro k v h
    by_cases hp : p.1 = k
    · simp only [recGet, if_pos hp] at h
      exact absurd h (by simp)
    · simp only [List.cons_append, recGet, if_neg hp] at h ⊢
      exact ih k v h

namespace Analytics

/-- Every entry of the sessionsMap is stored under its own session
id. -/
theorem buildSessionsMap_key_inv (supIds : List String) :
    ∀ (rows : List ChatRecord) (m : List (String × SessionView)),
      (∀ p ∈ m, p.2.sessionId = p.1) →
      ∀ p ∈ rows.foldl (foldSessionRecord supIds) m, p.2.sessionId = p.1 := by
  intro rows
  induction rows with
  | nil => intro m hm p hp; exact hm p hp
  | cons r rows ih =>
    intro m hm p hp
    rw [List.foldl_cons] at hp
    refine ih (foldSessionRecord supIds m r) ?_ p hp
    intro q hq
    unfold foldSessionRecord at hq
    cases hrs : r.session_id with
    | none => rw [hrs] at hq; exact hm q hq
    | some sid =>
      rw [hrs] at hq
      simp only [mapUpdateAt, List.mem_map] at hq
      obtain ⟨q0, hq0, hq0eq⟩ := hq
      have hq0key : q0.2.sessionId = q0.1 := by
        by_cases hsome : (recGet m sid).isSome
        · rw [if_pos hsome] at hq0
          exact hm q0 hq0
        · rw [if_neg hsome] at hq0
          rcases List.mem_append.mp hq0 with hq0m | hq0new
          · exact hm q0 hq0m
          · have : q0 = (sid,
                { sessionId := sid, userId := r.user_id, theme := r.theme,
                  interactions := [], hasSupportRequest := sid ∈ supIds,
                  lastQuestionTime := r.date_asked }) := by simpa using hq0new
            rw [this]
      by_cases hkey : q0.1 = sid
      · rw [if_pos hkey] at hq0eq
        rw [← hq0eq]
        exact hq0key
      · rw [if_neg hkey] at hq0eq
        rw [← hq0eq]
        exact hq0key

/-- The response row for a selected session id carries that id. -/
theorem sessionViewFor_sessionId (m : List (String × SessionView)) (supIds : List String)
    (sid : String) (hm : ∀ p ∈ m, p.2.sessionId = p.1) :
    (sessionViewFor m supIds sid).sessionId = sid := by
  unfold sessionViewFor
  cases hg : recGet m sid with
  | none => rfl
  | some sv =>
    have hmem := recGet_mem m sid sv hg
    exact hm (sid, sv) hmem

/-- The interactions a sessionViewFor response row reports are exactly
the ones stored under its id. -/
theorem sessionViewFor_interactions (m : List (String × SessionView)) (supIds : List String)
    (sid : String) :
    (sessionViewFor m supIds sid).interactions = interactionsAt m sid := by
  unfold sessionViewFor interactionsAt
  cases hg : recGet m sid <;> rfl

/-- One loop iteration appends the record's interaction row to its own
session's list and to no other. -/
theorem interactionsAt_foldSessionRecord (supIds : List String)
    (m : List (String × SessionView)) (r : ChatRecord) (sid : String) :
    interactionsAt (foldSessionRecord supIds m r) sid =
      interactionsAt m sid ++
        (if r.session_id = some sid then [⟨r.id, r.question, r.answer⟩] else []) := by
  cases hrs : r.session_id with
  | none =>
    unfold foldSessionRecord
    rw [hrs]
    simp [hrs]
  | some s =>
    unfold foldSessionRecord
    rw [hrs]
    simp only []
    by_cases hss : sid = s
    · subst hss
      by_cases hsome : (recGet m sid).isSome
      · rw [if_pos hsome]
        obtain ⟨sv, hsv⟩ := Option.isSome_iff_exists.mp hsome
        unfold interactionsAt
        rw [recGet_mapUpdateAt, if_pos rfl, hsv]
        simp [hrs]
      · rw [if_neg hsome]
        have hnone : recGet m sid = none := by
          cases hg : recGet m sid
          · rfl
          · rw [hg] at hsome; simp at hsome
        unfold interactionsAt
        rw [recGet_mapUpdateAt, if_pos rfl,
          recGet_append_of_none m sid _ hnone, hnone]
        simp [hrs]
    · have hneq : ¬ (some s = some sid) := fun hh => hss (Option.some_inj.mp hh).symm
      unfold interactionsAt
      rw [recGet_mapUpdateAt, if_neg hss]
      by_cases hsome : (recGet m s).isSome
      · rw [if_pos hsome]
        simp [hrs, hneq]
      · rw [if_neg hsome]
        rw [recGet_append_ne m s sid _ hss]
        simp [hrs, hneq]

/-- The sessionsMap loop stores, under every session id, exactly the
interaction rows of the processed records with that id, in processing
order. -/
theorem interactionsAt_buildSessionsMap (supIds : List String) :
    ∀ (rows : List ChatRecord) (m : List (String × SessionView)) (sid : String),
      interactionsAt (rows.foldl (foldSessionRecord supIds) m) sid =
        interactionsAt m sid ++
          (rows.filter (fun r => r.session_id = some sid)).map
            (fun r => ⟨r.id, r.question, r.answer⟩) := by
  intro rows
  induction rows with
  | nil => intro m sid; simp
  | cons r rows ih =>
    intro m sid
    rw [List.foldl_cons, ih (foldSessionRecord supIds m r) sid,
      interactionsAt_foldSessionRecord]
    by_cases hr : r.session_id = some sid
    · simp [hr, List.filter_cons, List.append_assoc]
    · simp [hr, List.filter_cons]

end Analytics

namespace Analytics

/-- The `take: 5` of the session groupBy bounds the number of selected
session ids. -/
theorem recentSessionIds_length_le (rs : List ChatRecord) :
    (recentSessionIds rs).length ≤ 5 := by
  unfold recentSessionIds recentSessionGroups
  calc (List.filterMap _ ((List.insertionSort _ (groupKeys (rs.map (fun r => r.session_id)))).take 5)).length
      ≤ ((List.insertionSort _ (groupKeys (rs.map (fun r => r.session_id)))).take 5).length :=
        List.length_filterMap_le _ _
    _ ≤ 5 := by
        rw [List.length_take]
        exact min_le_left _ _

/-- The selected session ids come out ordered by their group's maximum
record id, descending. -/
theorem recentSessionIds_pairwise (rs : List ChatRecord) :
    List.Pairwise
      (fun s1 s2 => groupMaxId rs (some s2) ≤ groupMaxId rs (some s1))
      (recentSessionIds rs) := by
  unfold recentSessionIds recentSessionGroups
  have hsorted : List.Pairwise
      (fun a b => groupMaxId rs b ≤ groupMaxId rs a)
      (List.insertionSort (fun a b => groupMaxId rs b ≤ groupMaxId rs a)
        (groupKeys (rs.map (fun r => r.session_id)))) := by
    haveI : IsTotal (Option String) (fun a b => groupMaxId rs b ≤ groupMaxId rs a) :=
      ⟨fun a b => Nat.le_total (groupMaxId rs b) (groupMaxId rs a)⟩
    haveI : IsTrans (Option String) (fun a b => groupMaxId rs b ≤ groupMaxId rs a) :=
      ⟨fun a b c hab hbc => Nat.le_trans hbc hab⟩
    exact List.sorted_insertionSort _ _
  have htake := List.Pairwise.sublist (List.take_sublist 5 _) hsorted
  have hex : ∀ (o : Option String) (b : String),
      (match o with
        | some s => if jsTruthy s then some s else none
        | none => none) = some b → o = some b := by
    intro o b hob
    cases o with
    | none => simp at hob
    | some s =>
      have hob2 : (if jsTruthy s = true then some s else none) = some b := hob
      by_cases hs : jsTruthy s = true
      · rw [if_pos hs] at hob2
        rw [Option.some_inj.mp hob2]
      · rw [if_neg hs] at hob2
        simp at hob2
  refine List.pairwise_filterMap.mpr (htake.imp ?_)
  intro o o' h b hb b' hb'
  rw [hex o b hb, hex o' b' hb'] at h
  exact h

/-- The interaction rows are fetched ordered by id ascending. -/
theorem recentInteractionRows_sorted (db : Db) (flt : SummaryFilters) (sids : List String) :
    List.Pairwise (fun a b : ChatRecord => a.id ≤ b.id)
      (recentInteractionRows db flt sids) := by
  unfold recentInteractionRows
  haveI : IsTotal ChatRecord (fun a b => a.id ≤ b.id) :=
    ⟨fun a b => Nat.le_total a.id b.id⟩
  haveI : IsTrans ChatRecord (fun a b => a.id ≤ b.id) :=
    ⟨fun a b c hab hbc => Nat.le_trans hab hbc⟩
  exact List.sorted_insertionSort _ _

/-- C8: fetchRecentSessions returns at most 5 sessions, ordered
most-recent-first (weakly descending by the maximum record id of each
session within the filtered rows), and inside every returned session
the interactions are ordered by ascending record id. -/
theorem recent_sessions_shape :
    ∀ (db : Db) (flt : SummaryFilters),
      (fetchRecentSessions db flt).length ≤ 5 ∧
      List.Pairwise
        (fun a b => groupMaxId (filteredChat db flt) (some b.sessionId) ≤
          groupMaxId (filteredChat db flt) (some a.sessionId))
        (fetchRecentSessions db flt) ∧
      (∀ sv ∈ fetchRecentSessions db flt,
        List.Pairwise (fun i j : InteractionView => i.id ≤ j.id) sv.interactions) := by
  intro db flt
  simp only [fetchRecentSessions]
  set rs := filteredChat db flt with hrs
  set sids := recentSessionIds rs with hsids
  set supIds := recentSupportIds db sids with hsup
  set rows := recentInteractionRows db flt sids with hrows
  set m := buildSessionsMap supIds rows with hm
  by_cases hemp : sids.isEmpty
  · simp [hemp]
  · rw [if_neg hemp]
    have hkey : ∀ p ∈ m, p.2.sessionId = p.1 :=
      buildSessionsMap_key_inv supIds rows [] (by simp)
    refine ⟨?_, ?_, ?_⟩
    · rw [List.length_map]
      exact recentSessionIds_length_le rs
    · refine List.pairwise_map.mpr ?_
      refine (recentSessionIds_pairwise rs).imp ?_
      intro s1 s2 h
      have e1 := sessionViewFor_sessionId m supIds s1 hkey
      have e2 := sessionViewFor_sessionId m supIds s2 hkey
      rw [e1, e2]
      exact h
    · intro sv hsv
      obtain ⟨sid, hsid, hsveq⟩ := List.mem_map.mp hsv
      rw [← hsveq, sessionViewFor_interactions]
      have hchar : interactionsAt m sid =
          interactionsAt ([] : List (String × SessionView)) sid ++
            (rows.filter (fun r => r.session_id = some sid)).map
              (fun r => ⟨r.id, r.question, r.answer⟩) :=
        interactionsAt_buildSessionsMap supIds rows [] sid
      rw [hchar]
      have hnil : interactionsAt ([] : List (String × SessionView)) sid = [] := rfl
      rw [hnil, List.nil_append]
      apply List.pairwise_map.mpr
      exact List.Pairwise.filter _ (recentInteractionRows_sorted db flt sids)

/-- C8 theorem applied to a concrete seven-record, six-session
database: only 5 sessions are returned, newest first, and the returned
session s1 lists its interactions in ascending id order. -/
theorem recent_sessions_shape_witness :
    (fetchRecentSessions Samples.recentDb {}).length ≤ 5 ∧
    List.Pairwise (fun i j : InteractionView => i.id ≤ j.id)
      ({ sessionId := "s1", userId := none, theme := none,
         interactions := [⟨1, "q1", "a1"⟩, ⟨7, "q7", "a7"⟩],
         hasSupportRequest := false, lastQuestionTime := some 7 } : SessionView).interactions ∧
    (fetchRecentSessions Samples.recentDb {}).map (fun sv => sv.sessionId) =
      ["s1", "s6", "s5", "s4", "s3"] :=
  ⟨(recent_sessions_shape Samples.recentDb {}).1,
   (recent_sessions_shape Samples.recentDb {}).2.2
     { sessionId := "s1", userId := none, theme := none,
       interactions := [⟨1, "q1", "a1"⟩, ⟨7, "q7", "a7"⟩],
       hasSupportRequest := false, lastQuestionTime := some 7 } (by decide),
   by decide⟩

end Analytics
